import Mathlib

/-!
Shallow embedding of the TalkEngine NLU pipeline orchestrator
(`talkengine/engine.py`, `talkengine/models.py`,
`talkengine/nlu_pipeline/models.py`,
`talkengine/nlu_pipeline/interaction_models.py`,
`talkengine/nlu_pipeline/interaction_handlers.py`) together with theorems
settling the behavioural claims about it.

Modelling conventions:
* Python values stored in parameter dictionaries are modelled by the small
  universe `Value`; dictionaries by ordered association lists with Python
  dict semantics (`dictGet`, `dictSet`).
* Machine floats (classifier confidence) are modelled as rationals; the
  only float operation the engine performs is an order comparison against
  the literal 0.6, which is order-isomorphic to the rational comparison.
* Exceptions are modelled with `Except Unit`; a collaborator that raises
  is a function returning `.error ()`.
* The three pluggable NLU collaborators (intent detection, parameter
  extraction, text generation) are external strategies; they are modelled
  as function parameters (`Collaborators`) receiving exactly the arguments
  the engine code passes and whose results the engine inspects.  The
  `context` argument Python additionally passes to them is omitted: the
  collaborators are opaque, so it adds no information to the model.
-/

set_option linter.unusedVariables false

deriving instance DecidableEq for Except

namespace TalkEngine

/-- Universe of Python values appearing in parameter dictionaries. -/
inductive Value where
| vstr (s : String)
| vint (n : Int)
| vbool (b : Bool)
| vnone
deriving DecidableEq

/-- A Python dict from parameter names to values, as an ordered association list. -/
abbrev Params := List (String × Value)

/-- Lookup in a string-keyed dict (`d.get(key)` / `key in d`). -/
def dictGet {α : Type} : List (String × α) → String → Option α
| [], _ => none
| (k, v) :: rest, key => if k = key then some v else dictGet rest key

/-- Python dict assignment `d[key] = val`: overwrite in place, or append a new binding. -/
def dictSet {α : Type} : List (String × α) → String → α → List (String × α)
| [], key, val => [(key, val)]
| (k, v) :: rest, key, val =>
    if k = key then (k, val) :: rest else (k, v) :: dictSet rest key val

/-- Python truthiness of an optional string: `None` and the empty string are falsy. -/
def pyTruthy : Option String → Bool
| some s => s != ""
| none => false

/-- Python `x or dflt` on an optional string (used as `current_intent or "unknown"`
and `data.prompt or fallback`): falsy values (`None`, `""`) yield the default. -/
def pyOr (o : Option String) (dflt : String) : String :=
  match o with
  | some s => if s = "" then dflt else s
  | none => dflt

/-- Value of a non-empty all-digit character list, in decimal. -/
def digitsVal : List Char → Option Nat
| [] => none
| cs =>
    if cs.all (fun c => c.isDigit) then
      some (cs.foldl (fun a c => a * 10 + (c.toNat - 48)) 0)
    else none

/-- Whitespace stripping from both ends of a character list (`str.strip()`). -/
def stripChars (cs : List Char) : List Char :=
  ((cs.dropWhile Char.isWhitespace).reverse.dropWhile Char.isWhitespace).reverse

/-- Model of Python `int(s)` as the clarification handler uses it
(`int(user_input.strip())`): strip surrounding whitespace, then an optional
sign followed by decimal digits.  Digit-group underscores are not modelled. -/
def pyInt (s : String) : Option Int :=
  match stripChars s.toList with
  | '+' :: rest => (digitsVal rest).map (fun n => (n : Int))
  | '-' :: rest => (digitsVal rest).map (fun n => -(n : Int))
  | rest => (digitsVal rest).map (fun n => (n : Int))

/-- `nlu_pipeline.models.InteractionState`: the interaction modes. -/
inductive InteractionState where
| clarifyingIntent
| validatingParameter
| awaitingFeedback
deriving DecidableEq

/-- The `.value` string of each `InteractionState` member. -/
def InteractionState.value : InteractionState → String
| .clarifyingIntent => "clarifying_intent"
| .validatingParameter => "validating_parameter"
| .awaitingFeedback => "awaiting_feedback"

/-- `nlu_pipeline.models.NLUPipelineState`: the pipeline step tags. -/
inductive NLUPipelineState where
| intentClassification
| intentClarification
| parameterIdentification
| parameterValidation
| codeExecution
| responseTextGeneration
deriving DecidableEq

/-- The `.value` string of each `NLUPipelineState` member. -/
def NLUPipelineState.value : NLUPipelineState → String
| .intentClassification => "intent_classification"
| .intentClarification => "intent_clarification"
| .parameterIdentification => "parameter_identification"
| .parameterValidation => "parameter_validation"
| .codeExecution => "code_execution"
| .responseTextGeneration => "response_text_generation"

/-- `interaction_models.ValidationRequestInfo`: a parameter needing validation. -/
structure ValidationRequestInfo where
  parameter_name : String
  reason : String
  current_value : Option Value := none
deriving DecidableEq

/-- The tagged interaction payload stored in `context.interaction_data`:
`ClarificationData(options, prompt)` or `ValidationData(requests, prompt)`.
(`FeedbackData` is omitted: no registered handler ever receives it.) -/
inductive InteractionData where
| clarification (options : List String) (prompt : String)
| validation (requests : List ValidationRequestInfo) (prompt : Option String)
deriving DecidableEq

/-- A pydantic `BaseModel` instance produced by an executable collaborator,
modelled as its class name plus its field values. -/
structure BMObject where
  cls : String
  fields : Params := []
deriving DecidableEq

/-- `nlu_pipeline.models.NLUPipelineContext`: the mutable pipeline context.
Static configuration fields the engine never branches on
(`command_metadata`, `conversation_history`, `excluded_intents`,
`classroom_mode`, `last_user_message_for_response`,
`last_artifacts_for_response`) are carried by `EngineConfig` or dropped. -/
structure NLUPipelineContext where
  current_state : NLUPipelineState := .intentClassification
  current_intent : Option String := none
  current_parameters : Params := []
  parameter_validation_errors : List String := []
  confidence_score : Rat := 0
  artifacts : Option BMObject := none
  interaction_mode : Option InteractionState := none
  interaction_data : Option InteractionData := none
deriving DecidableEq

/-- The context a fresh engine constructs (`NLUPipelineContext(command_metadata=...)`,
every dynamic field at its default). -/
def initialContext : NLUPipelineContext := {}

/-- `models.InteractionLogEntry` as a record (stage, prompt shown, user response). -/
structure InteractionLogEntry where
  stage : String
  prompt : String
  response : Option String
deriving DecidableEq

/-- Models the constructor call `InteractionLogEntry(stage=..., prompt=..., response=...)`
performed by `engine.py`.  In `talkengine/models.py`, `InteractionLogEntry` is the
type alias `Tuple[str, str, Optional[str]]` (`typing.Tuple`), and a subscripted
`typing.Tuple` cannot be instantiated at all (calling it raises
`TypeError: Type Tuple cannot be instantiated`).  Every such constructor call in
the engine therefore raises, which this definition records; the `.ok` branches at
its call sites below translate the source lines that would run if the alias were
the named tuple the engine comment expects. -/
def mkInteractionLogEntry (stage : String) (prompt : String) (response : Option String) :
    Except Unit InteractionLogEntry :=
  .error ()

/-- `models.ConversationDetail`. -/
structure ConversationDetail where
  interactions : List InteractionLogEntry := []
  response_text : Option String := none
deriving DecidableEq

/-- `models.NLUResult`.  The pydantic model has fields `command`, `parameters`,
`confidence`, `code_execution_result` and `conversation_detail` only — it has no
`artifacts` field. -/
structure NLUResult where
  command : Option String := none
  parameters : Params := []
  confidence : Option Rat := none
  code_execution_result : Option Params := none
  conversation_detail : ConversationDetail
deriving DecidableEq

/-- Models the engine calls `NLUResult(command=..., parameters=..., artifacts=...,
conversation_detail=...)`.  `artifacts` names no field of `models.NLUResult`, so
pydantic (default extra handling) silently drops that keyword; `confidence` and
`code_execution_result` keep their `None` defaults. -/
def mkNLUResult (command : Option String) (parameters : Params)
    (dropped_artifacts : Option BMObject) (conversation_detail : ConversationDetail) :
    NLUResult :=
  { command := command
  , parameters := parameters
  , confidence := none
  , code_execution_result := none
  , conversation_detail := conversation_detail }

/-- `ClarificationHandler.get_initial_prompt`: renders the stored prompt and the
1-based numbered option list, or a generic apology on a payload type mismatch. -/
def clarification_get_initial_prompt (context : NLUPipelineContext) : String :=
  match context.interaction_data with
  | some (.clarification options prompt) =>
      prompt ++ "\n" ++
        String.intercalate "\n"
          (options.enum.map (fun p => toString (p.1 + 1) ++ ". " ++ p.2))
  | _ => "Sorry, I got confused. Could you please rephrase?"

/-- `ClarificationHandler.handle_input`: interpret the reply as a 1-based index
into the options; on success set the chosen intent with confidence 1.0 and
proceed to parameter identification, otherwise return an apology; the
interaction fields are cleared on every branch. -/
def clarification_handle_input (context : NLUPipelineContext) (user_input : String) :
    NLUPipelineContext × Bool × Option String × Option String :=
  match context.interaction_data with
  | some (.clarification options _prompt) =>
      let choice_index : Option Int := (pyInt user_input).map (fun n => n - 1)
      let chosen_intent : Option String :=
        match choice_index with
        | some i =>
            if 0 ≤ i ∧ i < (options.length : Int) then options.get? i.toNat else none
        | none => none
      let context := { context with interaction_mode := none, interaction_data := none }
      match chosen_intent with
      | some intent =>
          ({ context with current_intent := some intent, confidence_score := 1 },
            true, some NLUPipelineState.parameterIdentification.value, none)
      | none =>
          (context, false, none,
            some "Sorry, I didn\x27t understand that choice. Please try again.")
  | _ =>
      ({ context with interaction_mode := none, interaction_data := none },
        false, none, some "Error: Invalid interaction data for clarification.")

/-- `ValidationHandler.get_initial_prompt`: the prompt stored by the engine if
truthy, else a prompt rendered from the first request; apologies on a missing
or mismatched payload. -/
def validation_get_initial_prompt (context : NLUPipelineContext) : String :=
  match context.interaction_data with
  | some (.validation requests prompt) =>
      match requests with
      | [] => "Sorry, something went wrong with validation. Could you rephrase?"
      | first :: _ =>
          pyOr prompt
            ("What is the value for " ++ first.parameter_name ++ "? (" ++
              first.reason ++ ")")
  | _ => "Sorry, I need more information. Could you please rephrase?"

/-- `ValidationHandler.handle_input`: write the raw user text verbatim under the
first request's parameter name, clear the interaction fields and proceed to code
execution; error branches clear the fields and return an error string. -/
def validation_handle_input (context : NLUPipelineContext) (user_input : String) :
    NLUPipelineContext × Bool × Option String × Option String :=
  match context.interaction_data with
  | some (.validation requests _prompt) =>
      match requests with
      | [] =>
          ({ context with interaction_mode := none, interaction_data := none },
            false, none, some "Error: No validation request details found.")
      | first :: _ =>
          let context :=
            { context with
                current_parameters :=
                  dictSet context.current_parameters first.parameter_name
                    (.vstr user_input)
              , interaction_mode := none
              , interaction_data := none }
          (context, true, some NLUPipelineState.codeExecution.value, none)
  | _ =>
      ({ context with interaction_mode := none, interaction_data := none },
        false, none, some "Error: Invalid interaction data for validation.")

/-- An interaction handler: the two operations of `BaseInteractionHandler`. -/
structure InteractionHandler where
  get_initial_prompt : NLUPipelineContext → String
  handle_input :
    NLUPipelineContext → String → NLUPipelineContext × Bool × Option String × Option String

/-- `TalkEngine._interaction_handlers` as built by
`_initialize_interaction_handlers`: handlers are registered for
`CLARIFYING_INTENT` and `VALIDATING_PARAMETER` only; `AWAITING_FEEDBACK` is a
declared mode with no registered handler. -/
def interaction_handlers : InteractionState → Option InteractionHandler
| .clarifyingIntent =>
    some ⟨clarification_get_initial_prompt, clarification_handle_input⟩
| .validatingParameter =>
    some ⟨validation_get_initial_prompt, validation_handle_input⟩
| .awaitingFeedback => none

/-- A Python class object used as a command parameter schema (a value for the
metadata key `"parameter_class"`).  `instantiate` models the pydantic
constructor call `parameter_class(**params)`: `none` models a raised
`ValidationError`.  `subclass_of_base_model` records the `issubclass(c,
BaseModel)` test. -/
structure PyType where
  name : String := ""
  subclass_of_base_model : Bool := true
  instantiate : Params → Option BMObject := fun ps => some ⟨"", ps⟩

/-- A raw value in a command-metadata dict, as `_validate_command_metadata`
discriminates them: a string (`isinstance(v, str)`), a class object
(`inspect.isclass(v)`), or anything else. -/
inductive MetaVal where
| str (s : String)
| pycls (c : PyType)
| other

/-- A validated command catalog entry as the pipeline consumes it:
`description` and the schema class stored under `"parameter_class"` (field
renamed to `param_schema` here). -/
structure CommandMeta where
  description : String
  param_schema : PyType

/-- A validated per-command `executable_code` override: the callable (which may
raise) and the declared `result_class` name tag (`result_cls` here).  The
`isinstance(result_object, result_class)` check is modelled as class-tag
equality. -/
structure ExecCode where
  function : BMObject → Except Unit BMObject
  result_cls : String

/-- The engine configuration fixed at construction: the validated command
catalog and the per-command executable-code overrides.  (Strategy-interface
overrides select which collaborator functions are passed to `run`; they carry
no further data, so they are represented by the `Collaborators` argument
itself.) -/
structure EngineConfig where
  command_metadata : List (String × CommandMeta)
  overrides : List (String × ExecCode)

/-- `TalkEngine._validate_command_metadata`, for one command definition: the
entry must contain a string `"description"` and a `"parameter_class"` that is a
class and a `BaseModel` subclass.  Command keys are modelled as strings, so the
`isinstance(cmd_name, str)` check always passes.  Error message texts follow
the source with the quoting trimmed. -/
def validate_cmd_def (cmd_name : String) (cmd_def : List (String × MetaVal)) :
    Except String Unit :=
  match dictGet cmd_def "description" with
  | some (.str _) =>
      match dictGet cmd_def "parameter_class" with
      | none =>
          .error ("Command " ++ cmd_name ++ " metadata missing parameter_class.")
      | some (.pycls c) =>
          if c.subclass_of_base_model then .ok ()
          else
            .error ("parameter_class for command " ++ cmd_name ++
              " must be a subclass of pydantic.BaseModel.")
      | some _ =>
          .error ("parameter_class for command " ++ cmd_name ++
            " must be a class type.")
  | _ => .error ("Command " ++ cmd_name ++ " metadata missing string description.")

/-- `TalkEngine._validate_command_metadata` over the whole catalog. -/
def validate_command_metadata :
    List (String × List (String × MetaVal)) → Except String Unit
| [] => .ok ()
| (cmd_name, cmd_def) :: rest => do
    validate_cmd_def cmd_name cmd_def
    validate_command_metadata rest

/-- Extracts the validated view of one command definition (total; the defaults
are unreachable once `validate_cmd_def` succeeded). -/
def toCommandMeta (cmd_def : List (String × MetaVal)) : CommandMeta :=
  { description :=
      match dictGet cmd_def "description" with
      | some (.str s) => s
      | _ => ""
  , param_schema :=
      match dictGet cmd_def "parameter_class" with
      | some (.pycls c) => c
      | _ => {} }

/-- `TalkEngine.__init__` / `_do_initialize` restricted to the command catalog:
the catalog is validated eagerly and the engine configuration is built, or a
configuration error is raised at construction time.  (Validation of the
`nlu_overrides` mapping is outside the scope of the claims and is not
modelled; `overrides` is received already in validated form.) -/
def construct (metadata : List (String × List (String × MetaVal)))
    (overrides : List (String × ExecCode)) : Except String EngineConfig := do
  validate_command_metadata metadata
  .ok ⟨metadata.map (fun p => (p.1, toCommandMeta p.2)), overrides⟩

/-- Whether construction succeeds on the given raw catalog. -/
def constructOk (metadata : List (String × List (String × MetaVal)))
    (overrides : List (String × ExecCode)) : Bool :=
  match construct metadata overrides with
  | .ok _ => true
  | .error _ => false

/-- The classifier result dict: `intent_result.get("intent")` and
`intent_result.get("confidence", 0.0)` (an absent confidence key is folded
into the default `0.0`). -/
structure ClassifyResult where
  intent : Option String
  confidence : Rat := 0

/-- The three pluggable NLU collaborators, as functions of the arguments the
engine passes: the classifier receives the user query and the excluded
intents, the extractor the query, the intent and the schema class, the text
generator the command name, the parameters and the artifact.  Each may raise
(`.error ()`); the generator may also return `None` (`.ok none`). -/
structure Collaborators where
  classify_intent : String → List String → Except Unit ClassifyResult
  identify_parameters :
    String → String → PyType → Except Unit (Params × List ValidationRequestInfo)
  generate_text : String → Params → Option BMObject → Except Unit (Option String)

/-- The result `run` builds inside its outermost `except` clause:
`NLUResult(command="unknown", conversation_detail=ConversationDetail(
interactions=..., response_text="Sorry, an unexpected error occurred."))`. -/
def catchAllResult (interactions : List InteractionLogEntry) : NLUResult :=
  { command := some "unknown"
  , conversation_detail :=
      ⟨interactions, some "Sorry, an unexpected error occurred."⟩ }

/-- `CLARIFICATION_CONFIDENCE_THRESHOLD` from `TalkEngine.run`. -/
def clarificationConfidenceThreshold : Rat := mkRat 6 10

/-- Step 4 of the main sequence (`RESPONSE_TEXT_GENERATION`): invoke the text
generator (always configured), substituting a canned apology if it raises,
then assemble the final result from the context.  Returns the final context
and the final `NLUResult`. -/
def stepGen (collab : Collaborators) (ctx : NLUPipelineContext) (user_query : String)
    (interactions : List InteractionLogEntry) : NLUPipelineContext × NLUResult :=
  let ctx := { ctx with current_state := .responseTextGeneration }
  let text_response : Option String :=
    match collab.generate_text (pyOr ctx.current_intent "unknown")
        ctx.current_parameters ctx.artifacts with
    | .ok t => t
    | .error _ => some "Sorry, I encountered an error generating a response."
  (ctx, mkNLUResult ctx.current_intent ctx.current_parameters ctx.artifacts
    ⟨interactions, text_response⟩)

/-- Step 3 of the main sequence (`CODE_EXECUTION`): if the current intent is
truthy and has an `executable_code` override, instantiate the parameter
object, run the function and type-check the result; every failure is caught
and leaves `artifacts = None`.  `local_param_schema` is the Python local
variable `parameter_class` of `run`: it is bound only when the
parameter-identification step ran earlier in the same call, so when this step
is entered directly from a validation resume the variable is unbound and
reading it raises `UnboundLocalError`, which the `except` clause catches
(modelled by the `none` branch).  Always continues to response generation. -/
def stepExec (cfg : EngineConfig) (collab : Collaborators) (ctx : NLUPipelineContext)
    (local_param_schema : Option PyType) (user_query : String)
    (interactions : List InteractionLogEntry) : NLUPipelineContext × NLUResult :=
  let ctx := { ctx with current_state := .codeExecution, artifacts := none }
  let ctx :=
    match ctx.current_intent with
    | some intent =>
        if intent ≠ "" then
          match dictGet cfg.overrides intent with
          | some exec_code =>
              let new_artifacts : Option BMObject :=
                match local_param_schema with
                | none => none
                | some pcls =>
                    match pcls.instantiate ctx.current_parameters with
                    | none => none
                    | some param_object =>
                        match exec_code.function param_object with
                        | .error _ => none
                        | .ok result_object =>
                            if result_object.cls = exec_code.result_cls then
                              some result_object
                            else none
              { ctx with artifacts := new_artifacts }
          | none => ctx
        else ctx
    | none => ctx
  stepGen collab ctx user_query interactions

/-- Step 2 of the main sequence (`PARAMETER_IDENTIFICATION`): requires a
truthy, non-`"unknown"` intent with catalog metadata; invokes the extractor
(exceptions caught, skipping to response generation).  If validation requests
are produced, enter `VALIDATING_PARAMETER` mode keyed on the stored data,
render and store the prompt, and attempt to log the interaction — that
`InteractionLogEntry` call raises, the surrounding
`except` of the extraction step catches it, and the pipeline continues to
response generation with the interaction mode still set (the `.ok` branch is
the intended suspend-and-return path).  With no requests, continue to code
execution. -/
def stepParams (cfg : EngineConfig) (collab : Collaborators)
    (ctx : NLUPipelineContext) (user_query : String)
    (interactions : List InteractionLogEntry) : NLUPipelineContext × NLUResult :=
  let ctx := { ctx with current_state := .parameterIdentification }
  if ¬ (pyTruthy ctx.current_intent = true) ∨ ctx.current_intent = some "unknown" then
    stepGen collab ctx user_query interactions
  else
    match ctx.current_intent with
    | none => stepGen collab ctx user_query interactions
    | some intent =>
        match dictGet cfg.command_metadata intent with
        | none => stepGen collab ctx user_query interactions
        | some command_def =>
            match collab.identify_parameters user_query intent
                command_def.param_schema with
            | .error _ => stepGen collab ctx user_query interactions
            | .ok (extracted_params, validation_requests) =>
                let ctx :=
                  { ctx with
                      current_parameters := extracted_params
                    , parameter_validation_errors :=
                        validation_requests.map
                          (fun req => req.parameter_name ++ ": " ++ req.reason) }
                match validation_requests with
                | [] =>
                    stepExec cfg collab ctx (some command_def.param_schema)
                      user_query interactions
                | first :: rest =>
                    let ctx :=
                      { ctx with
                          interaction_mode := some .validatingParameter
                        , interaction_data :=
                            some (.validation (first :: rest) none) }
                    let prompt := validation_get_initial_prompt ctx
                    let ctx :=
                      { ctx with
                          interaction_data :=
                            some (.validation (first :: rest) (some prompt)) }
                    match mkInteractionLogEntry
                        InteractionState.validatingParameter.value prompt none with
                    | .error _ => stepGen collab ctx user_query interactions
                    | .ok entry =>
                        (ctx, mkNLUResult ctx.current_intent ctx.current_parameters
                          none ⟨interactions ++ [entry], some prompt⟩)

/-- Step 1 of the main sequence (`INTENT_CLASSIFICATION`): invoke the
classifier (an exception here is caught only by the outermost catch-all of
`run`, producing the generic error result); store intent and confidence.  If
the confidence is below the 0.6 threshold, enter `CLARIFYING_INTENT` mode with
the single option `current_intent or "unknown"` and an empty stored prompt,
and attempt to log and return the clarification prompt — the
`InteractionLogEntry` call raises into the catch-all (the `.ok` branch is the
intended return).  Otherwise continue to parameter identification, or skip to
response generation for a falsy or `"unknown"` intent. -/
def stepIntent (cfg : EngineConfig) (collab : Collaborators)
    (ctx : NLUPipelineContext) (user_query : String) (excluded_intents : List String)
    (interactions : List InteractionLogEntry) : NLUPipelineContext × NLUResult :=
  let ctx := { ctx with current_state := .intentClassification }
  match collab.classify_intent user_query excluded_intents with
  | .error _ => (ctx, catchAllResult interactions)
  | .ok intent_result =>
      let ctx :=
        { ctx with
            current_intent := intent_result.intent
          , confidence_score := intent_result.confidence }
      if ctx.confidence_score < clarificationConfidenceThreshold then
        let clarification_data : InteractionData :=
          .clarification [pyOr ctx.current_intent "unknown"] ""
        let ctx :=
          { ctx with
              interaction_mode := some .clarifyingIntent
            , interaction_data := some clarification_data }
        match interaction_handlers .clarifyingIntent with
        | some handler =>
            let prompt := handler.get_initial_prompt ctx
            match mkInteractionLogEntry InteractionState.clarifyingIntent.value
                prompt none with
            | .error _ => (ctx, catchAllResult interactions)
            | .ok entry =>
                (ctx, mkNLUResult none [] none
                  ⟨interactions ++ [entry], some prompt⟩)
        | none =>
            if ¬ (pyTruthy ctx.current_intent = true) ∨
                ctx.current_intent = some "unknown" then
              stepGen collab ctx user_query interactions
            else stepParams cfg collab ctx user_query interactions
      else
        if ¬ (pyTruthy ctx.current_intent = true) ∨
            ctx.current_intent = some "unknown" then
          stepGen collab ctx user_query interactions
        else stepParams cfg collab ctx user_query interactions

/-- The entry step tags with which the main `while goto_step` loop can start:
fresh classification, or parameter identification / code execution when an
interaction handler resumed the sequence mid-way. -/
inductive Step where
| intent
| param
| exec
deriving DecidableEq

/-- Resetting the per-run context fields, performed exactly when the main loop
starts at intent classification. -/
def resetCtx (ctx : NLUPipelineContext) : NLUPipelineContext :=
  { ctx with
      artifacts := none
    , current_intent := none
    , current_parameters := []
    , parameter_validation_errors := []
    , confidence_score := 0 }

/-- The main pipeline loop of `run`, entered at the given step.  The loop in
the source only ever moves forward through
classification → identification → execution → generation, so it is expressed
as the chain of step functions. -/
def mainPipeline (cfg : EngineConfig) (collab : Collaborators)
    (ctx : NLUPipelineContext) (user_query : String) (excluded_intents : List String)
    (interactions : List InteractionLogEntry) :
    Step → NLUPipelineContext × NLUResult
| .intent =>
    stepIntent cfg collab (resetCtx ctx) user_query excluded_intents interactions
| .param => stepParams cfg collab ctx user_query interactions
| .exec => stepExec cfg collab ctx none user_query interactions

/-- The `prompt` attribute read from the stored interaction payload
(`getattr(interaction_data, "prompt", None)`). -/
def dataPrompt : Option InteractionData → Option String
| some (.clarification _ prompt) => some prompt
| some (.validation _ prompt) => prompt
| none => none

/-- `TalkEngine.run`: resume a pending interaction if `interaction_mode` is
set, otherwise run the main pipeline from intent classification.  Returns the
updated persistent context together with either the returned `NLUResult` or
`.error ()` when `run` itself raises.  The only raise that escapes `run` is
the `InteractionLogEntry` construction on the interaction-resume path: it
sits before the `try` block that wraps the main pipeline, and it executes
exactly when the stored prompt is truthy. -/
def run (cfg : EngineConfig) (collab : Collaborators) (ctx : NLUPipelineContext)
    (user_query : String) (excluded_intents : List String) :
    NLUPipelineContext × Except Unit NLUResult :=
  match ctx.interaction_mode with
  | none =>
      let out := mainPipeline cfg collab ctx user_query excluded_intents [] .intent
      (out.1, .ok out.2)
  | some mode =>
      let initial_prompt := dataPrompt ctx.interaction_data
      match interaction_handlers mode with
      | some handler =>
          let logged : Except Unit (List InteractionLogEntry) :=
            if pyTruthy initial_prompt then
              (mkInteractionLogEntry mode.value (initial_prompt.getD "")
                (some user_query)).map (fun e => [e])
            else .ok []
          match logged with
          | .error _ => (ctx, .error ())
          | .ok current_interactions =>
              let handled := handler.handle_input ctx user_query
              let ctx := handled.1
              let proceed_flag := handled.2.1
              let goto_step := handled.2.2.1
              let response_if_returning := handled.2.2.2
              if proceed_flag then
                let step : Step :=
                  if goto_step = some NLUPipelineState.parameterIdentification.value
                  then .param
                  else if goto_step = some NLUPipelineState.codeExecution.value
                  then .exec
                  else .intent
                let out := mainPipeline cfg collab ctx user_query excluded_intents
                  current_interactions step
                (out.1, .ok out.2)
              else
                (ctx, .ok (mkNLUResult ctx.current_intent ctx.current_parameters
                  ctx.artifacts ⟨current_interactions, response_if_returning⟩))
      | none =>
          let ctx :=
            { ctx with interaction_mode := none, interaction_data := none }
          let out := mainPipeline cfg collab ctx user_query excluded_intents [] .intent
          (out.1, .ok out.2)

/-- The contexts reachable through the public engine surface: the freshly
constructed context, the context after any `run` call (with any configuration,
collaborators and inputs), and the context returned by any registered
interaction handler. -/
inductive Reachable : NLUPipelineContext → Prop
| construct : Reachable initialContext
| run (cfg : EngineConfig) (collab : Collaborators) (ctx : NLUPipelineContext)
    (user_query : String) (excluded_intents : List String) :
    Reachable ctx → Reachable (run cfg collab ctx user_query excluded_intents).1
| handler (mode : InteractionState) (h : InteractionHandler)
    (ctx : NLUPipelineContext) (user_input : String) :
    Reachable ctx → interaction_handlers mode = some h →
    Reachable (h.handle_input ctx user_input).1

/-- The context invariant claimed for `interaction_mode` / `interaction_data`:
the payload is present exactly when a mode is set, and its variant matches the
mode. -/
def contextInvariant (ctx : NLUPipelineContext) : Prop :=
  (ctx.interaction_data.isSome ↔ ctx.interaction_mode.isSome) ∧
  (ctx.interaction_mode = some .clarifyingIntent →
    ∃ options prompt,
      ctx.interaction_data = some (.clarification options prompt)) ∧
  (ctx.interaction_mode = some .validatingParameter →
    ∃ requests prompt, ctx.interaction_data = some (.validation requests prompt)) ∧
  (ctx.interaction_mode ≠ some .awaitingFeedback)

/-- Spec-side well-formedness of one raw command definition: a string
description (possibly empty, which is what the code actually accepts) and a
`parameter_class` that is a class subclassing `BaseModel`. -/
def metaEntryWellFormed (cmd_def : List (String × MetaVal)) : Bool :=
  (match dictGet cmd_def "description" with
   | some (.str _) => true
   | _ => false) &&
  (match dictGet cmd_def "parameter_class" with
   | some (.pycls c) => c.subclass_of_base_model
   | _ => false)

/-- The possible effects of one pipeline step on the interaction fields:
untouched, or a freshly installed clarification payload, or a freshly
installed validation payload. -/
def interactionOutcome (ctx out : NLUPipelineContext) : Prop :=
  (out.interaction_mode = ctx.interaction_mode ∧
    out.interaction_data = ctx.interaction_data) ∨
  (∃ options prompt, out.interaction_mode = some .clarifyingIntent ∧
    out.interaction_data = some (.clarification options prompt)) ∨
  (∃ requests prompt, out.interaction_mode = some .validatingParameter ∧
    out.interaction_data = some (.validation requests prompt))

/-! Concrete fixtures used by counterexamples and witnesses. -/

/-- A parameter schema class whose pydantic constructor always succeeds. -/
def ptypeAdd : PyType :=
  { name := "AddParams", instantiate := fun ps => some ⟨"AddParams", ps⟩ }

/-- A parameter schema class whose pydantic constructor always raises
`ValidationError` (every parameter dict is rejected). -/
def ptypeReject : PyType := { name := "AddParams", instantiate := fun _ => none }

/-- A one-command catalog with no executable override. -/
def cfgAdd : EngineConfig := ⟨[("add", ⟨"Adds numbers", ptypeAdd⟩)], []⟩

/-- A classifier returning intent `add` at confidence 0.4, extractor and
generator succeeding. -/
def collabLow : Collaborators :=
  { classify_intent := fun _ _ => .ok ⟨some "add", mkRat 4 10⟩
  , identify_parameters := fun _ _ _ => .ok ([], [])
  , generate_text := fun _ _ _ => .ok (some "GEN") }

/-- A classifier returning intent `add` at confidence 0.9, extractor and
generator succeeding. -/
def collabHigh : Collaborators :=
  { classify_intent := fun _ _ => .ok ⟨some "add", mkRat 9 10⟩
  , identify_parameters := fun _ _ _ => .ok ([], [])
  , generate_text := fun _ _ _ => .ok (some "GEN") }

/-- A classifier that raises; the other collaborators would succeed. -/
def collabBoom : Collaborators :=
  { classify_intent := fun _ _ => .error ()
  , identify_parameters := fun _ _ _ => .ok ([], [])
  , generate_text := fun _ _ _ => .ok (some "GEN") }

/-- A high-confidence classifier whose extractor reports two missing required
parameters; the generator succeeds. -/
def collabVal : Collaborators :=
  { classify_intent := fun _ _ => .ok ⟨some "add", mkRat 99 100⟩
  , identify_parameters := fun _ _ _ =>
      .ok ([], [⟨"req_param", "missing_required", none⟩,
                ⟨"p2", "missing_required", none⟩])
  , generate_text := fun _ _ _ => .ok (some "GEN") }

/-- An executable override whose function raises. -/
def execRaise : ExecCode := ⟨fun _ => .error (), "AddResult"⟩

/-- An executable override whose function returns an object of the wrong
class. -/
def execWrong : ExecCode := ⟨fun _ => .ok ⟨"WrongResult", []⟩, "AddResult"⟩

/-- An executable override whose function succeeds with the declared result
class. -/
def execOkFn : ExecCode := ⟨fun _ => .ok ⟨"AddResult", []⟩, "AddResult"⟩

/-- Catalog with an executable override whose function raises. -/
def cfgExecRaise : EngineConfig :=
  ⟨[("add", ⟨"Adds numbers", ptypeAdd⟩)], [("add", execRaise)]⟩

/-- Catalog with an executable override returning the wrong result class. -/
def cfgExecWrong : EngineConfig :=
  ⟨[("add", ⟨"Adds numbers", ptypeAdd⟩)], [("add", execWrong)]⟩

/-- Catalog whose parameter schema rejects every parameter dict, with a
well-behaved executable override. -/
def cfgExecReject : EngineConfig :=
  ⟨[("add", ⟨"Adds numbers", ptypeReject⟩)], [("add", execOkFn)]⟩

/-- A context whose pending interaction mode is `AWAITING_FEEDBACK` — a known
`InteractionState` member for which `_initialize_interaction_handlers`
registers no handler. -/
def ctxAwaitingFeedback : NLUPipelineContext :=
  { initialContext with
      interaction_mode := some .awaitingFeedback
    , interaction_data := some (.clarification ["a"] "p") }

/-- The persistent context after a fresh `run` whose classifier comes back at
confidence 0.4: the engine has entered clarification (the pending interaction
that the next `run` call resumes). -/
def ctxAfterClarificationEntry : NLUPipelineContext :=
  (run cfgAdd collabLow initialContext "first query" []).1

/-- The persistent context after a fresh `run` whose extractor produced two
validation requests: the engine is in `VALIDATING_PARAMETER` mode with the
rendered prompt stored. -/
def ctxAfterValidationEntry : NLUPipelineContext :=
  (run cfgAdd collabVal initialContext "first query" []).1

/-- A pending clarification over two options, as the engine would hold it
(stored prompt is the empty string the engine installs). -/
def ctxClarTwo : NLUPipelineContext :=
  { initialContext with
      current_intent := some "add"
    , confidence_score := mkRat 4 10
    , interaction_mode := some .clarifyingIntent
    , interaction_data := some (.clarification ["add", "sub"] "") }

/-! Helper lemmas about the engine embedding, shared by the claim theorems. -/

/-- With no pending interaction, `run` is the main pipeline started at intent
classification. -/
theorem run_mode_none (cfg : EngineConfig) (collab : Collaborators)
    (ctx : NLUPipelineContext) (q : String) (ex : List String)
    (h : ctx.interaction_mode = none) :
    run cfg collab ctx q ex =
      ((mainPipeline cfg collab ctx q ex [] .intent).1,
        .ok (mainPipeline cfg collab ctx q ex [] .intent).2) := by
  simp only [run, h]

/-- Resuming a pending interaction whose stored prompt is falsy: the log write
is skipped and the handler outcome drives the rest of the call. -/
theorem run_mode_handler (cfg : EngineConfig) (collab : Collaborators)
    (ctx : NLUPipelineContext) (q : String) (ex : List String)
    (mode : InteractionState) (handler : InteractionHandler)
    (hm : ctx.interaction_mode = some mode)
    (hh : interaction_handlers mode = some handler)
    (hp : pyTruthy (dataPrompt ctx.interaction_data) = false) :
    run cfg collab ctx q ex =
      (let handled := handler.handle_input ctx q
       if handled.2.1 then
        ((mainPipeline cfg collab handled.1 q ex []
          (if handled.2.2.1 = some NLUPipelineState.parameterIdentification.value
           then .param
           else if handled.2.2.1 = some NLUPipelineState.codeExecution.value
           then .exec
           else .intent)).1,
         .ok (mainPipeline cfg collab handled.1 q ex []
          (if handled.2.2.1 = some NLUPipelineState.parameterIdentification.value
           then .param
           else if handled.2.2.1 = some NLUPipelineState.codeExecution.value
           then .exec
           else .intent)).2)
       else
        (handled.1, .ok (mkNLUResult handled.1.current_intent
          handled.1.current_parameters handled.1.artifacts ⟨[], handled.2.2.2⟩))) := by
  simp only [run, hm, hh, hp, if_false, Bool.false_eq_true]

/-- Resuming a pending interaction whose stored prompt is truthy: the
`InteractionLogEntry` construction raises before the `try` block, so `run`
itself raises and the context is left untouched. -/
theorem run_mode_handler_raises (cfg : EngineConfig) (collab : Collaborators)
    (ctx : NLUPipelineContext) (q : String) (ex : List String)
    (mode : InteractionState) (handler : InteractionHandler)
    (hm : ctx.interaction_mode = some mode)
    (hh : interaction_handlers mode = some handler)
    (hp : pyTruthy (dataPrompt ctx.interaction_data) = true) :
    run cfg collab ctx q ex = (ctx, .error ()) := by
  simp only [run, hm, hh, hp, if_true, mkInteractionLogEntry, Except.map]

/-- Entering `run` in a mode with no registered handler: the engine logs an
error, clears the interaction fields and restarts the main pipeline at intent
classification. -/
theorem run_no_handler (cfg : EngineConfig) (collab : Collaborators)
    (ctx : NLUPipelineContext) (q : String) (ex : List String)
    (mode : InteractionState)
    (hm : ctx.interaction_mode = some mode)
    (hh : interaction_handlers mode = none) :
    run cfg collab ctx q ex =
      ((mainPipeline cfg collab
          { ctx with interaction_mode := none, interaction_data := none }
          q ex [] .intent).1,
        .ok (mainPipeline cfg collab
          { ctx with interaction_mode := none, interaction_data := none }
          q ex [] .intent).2) := by
  simp only [run, hm, hh]

/-- Response generation never touches the interaction fields. -/
theorem stepGen_fst (collab : Collaborators) (ctx : NLUPipelineContext)
    (q : String) (ints : List InteractionLogEntry) :
    (stepGen collab ctx q ints).1 =
      { ctx with current_state := .responseTextGeneration } := rfl

/-- Code execution changes only `current_state` and `artifacts`. -/
theorem stepExec_interaction (cfg : EngineConfig) (collab : Collaborators)
    (ctx : NLUPipelineContext) (pc : Option PyType) (q : String)
    (ints : List InteractionLogEntry) :
    ((stepExec cfg collab ctx pc q ints).1).interaction_mode =
        ctx.interaction_mode ∧
    ((stepExec cfg collab ctx pc q ints).1).interaction_data =
        ctx.interaction_data := by
  unfold stepExec
  rw [stepGen_fst]
  constructor <;> (repeat' split) <;> rfl

/-- A context with cleared interaction fields satisfies the invariant. -/
theorem cleared_invariant (ctx : NLUPipelineContext)
    (hm : ctx.interaction_mode = none) (hd : ctx.interaction_data = none) :
    contextInvariant ctx := by
  simp [contextInvariant, hm, hd]

/-- A step with `interactionOutcome` preserves the invariant. -/
theorem interactionOutcome_invariant (ctx out : NLUPipelineContext)
    (hinv : contextInvariant ctx) (hout : interactionOutcome ctx out) :
    contextInvariant out := by
  obtain ⟨h1, h2, h3, h4⟩ := hinv
  rcases hout with ⟨hm, hd⟩ | ⟨options, prompt, hm, hd⟩ |
    ⟨requests, prompt, hm, hd⟩ <;>
    refine ⟨?_, ?_, ?_, ?_⟩ <;> simp_all

/-- Response generation leaves the interaction fields untouched. -/
theorem stepGen_interactionOutcome (collab : Collaborators)
    (ctx : NLUPipelineContext) (q : String) (ints : List InteractionLogEntry) :
    interactionOutcome ctx (stepGen collab ctx q ints).1 := by
  left
  rw [stepGen_fst]
  exact ⟨rfl, rfl⟩

/-- Code execution leaves the interaction fields untouched. -/
theorem stepExec_interactionOutcome (cfg : EngineConfig) (collab : Collaborators)
    (ctx : NLUPipelineContext) (pc : Option PyType) (q : String)
    (ints : List InteractionLogEntry) :
    interactionOutcome ctx (stepExec cfg collab ctx pc q ints).1 := by
  left
  exact stepExec_interaction cfg collab ctx pc q ints

/-- Parameter identification leaves the interaction fields untouched or
installs a matching validation payload. -/
theorem stepParams_interactionOutcome (cfg : EngineConfig) (collab : Collaborators)
    (ctx : NLUPipelineContext) (q : String) (ints : List InteractionLogEntry) :
    interactionOutcome ctx (stepParams cfg collab ctx q ints).1 := by
  unfold stepParams interactionOutcome
  simp only [mkInteractionLogEntry]
  repeat' split
  all_goals
    first
    | (left; rw [stepGen_fst]; exact ⟨rfl, rfl⟩)
    | (left; exact stepExec_interaction ..)
    | (right; right; rw [stepGen_fst]; exact ⟨_, _, rfl, rfl⟩)

/-- Intent classification leaves the interaction fields untouched or installs
a matching clarification payload, or hands over to a later step. -/
theorem stepIntent_interactionOutcome (cfg : EngineConfig) (collab : Collaborators)
    (ctx : NLUPipelineContext) (q : String) (ex : List String)
    (ints : List InteractionLogEntry) :
    interactionOutcome ctx (stepIntent cfg collab ctx q ex ints).1 := by
  unfold stepIntent interactionOutcome
  simp only [mkInteractionLogEntry, interaction_handlers]
  repeat' split
  all_goals
    first
    | (left; exact ⟨rfl, rfl⟩)
    | (right; left; exact ⟨_, _, rfl, rfl⟩)
    | exact stepParams_interactionOutcome ..

/-- The clarification handler clears the interaction fields on every branch. -/
theorem clarification_handle_cleared (ctx : NLUPipelineContext) (input : String) :
    ((clarification_handle_input ctx input).1).interaction_mode = none ∧
    ((clarification_handle_input ctx input).1).interaction_data = none := by
  unfold clarification_handle_input
  dsimp only
  repeat' split
  all_goals exact ⟨rfl, rfl⟩

/-- The validation handler clears the interaction fields on every branch. -/
theorem validation_handle_cleared (ctx : NLUPipelineContext) (input : String) :
    ((validation_handle_input ctx input).1).interaction_mode = none ∧
    ((validation_handle_input ctx input).1).interaction_data = none := by
  unfold validation_handle_input
  dsimp only
  repeat' split
  all_goals exact ⟨rfl, rfl⟩

/-- Every registered handler clears the interaction fields. -/
theorem handler_cleared (mode : InteractionState) (handler : InteractionHandler)
    (hh : interaction_handlers mode = some handler)
    (ctx : NLUPipelineContext) (input : String) :
    ((handler.handle_input ctx input).1).interaction_mode = none ∧
    ((handler.handle_input ctx input).1).interaction_data = none := by
  cases mode with
  | clarifyingIntent =>
      cases hh
      exact clarification_handle_cleared ctx input
  | validatingParameter =>
      cases hh
      exact validation_handle_cleared ctx input
  | awaitingFeedback => cases hh

/-- The whole main pipeline has `interactionOutcome` relative to its entry
context. -/
theorem mainPipeline_interactionOutcome (cfg : EngineConfig)
    (collab : Collaborators) (ctx : NLUPipelineContext) (q : String)
    (ex : List String) (ints : List InteractionLogEntry) (step : Step) :
    interactionOutcome ctx (mainPipeline cfg collab ctx q ex ints step).1 := by
  cases step with
  | intent => exact stepIntent_interactionOutcome cfg collab (resetCtx ctx) q ex ints
  | param => exact stepParams_interactionOutcome cfg collab ctx q ints
  | exec => exact stepExec_interactionOutcome cfg collab ctx none q ints

/-- A `run` call preserves the context invariant. -/
theorem run_invariant (cfg : EngineConfig) (collab : Collaborators)
    (ctx : NLUPipelineContext) (q : String) (ex : List String)
    (hinv : contextInvariant ctx) :
    contextInvariant (run cfg collab ctx q ex).1 := by
  cases hm : ctx.interaction_mode with
  | none =>
      rw [run_mode_none cfg collab ctx q ex hm]
      exact interactionOutcome_invariant ctx _ hinv
        (mainPipeline_interactionOutcome cfg collab ctx q ex [] .intent)
  | some mode =>
      cases hh : interaction_handlers mode with
      | none =>
          rw [run_no_handler cfg collab ctx q ex mode hm hh]
          have hcl : contextInvariant
              { ctx with interaction_mode := none, interaction_data := none } :=
            cleared_invariant _ rfl rfl
          exact interactionOutcome_invariant _ _ hcl
            (mainPipeline_interactionOutcome cfg collab _ q ex [] .intent)
      | some handler =>
          cases hp : pyTruthy (dataPrompt ctx.interaction_data) with
          | true =>
              rw [run_mode_handler_raises cfg collab ctx q ex mode handler hm hh hp]
              exact hinv
          | false =>
              rw [run_mode_handler cfg collab ctx q ex mode handler hm hh hp]
              have hcl := handler_cleared mode handler hh ctx q
              have hclin : contextInvariant (handler.handle_input ctx q).1 :=
                cleared_invariant _ hcl.1 hcl.2
              by_cases hpr : (handler.handle_input ctx q).2.1 = true
              · simp only [hpr, if_true]
                exact interactionOutcome_invariant _ _ hclin
                  (mainPipeline_interactionOutcome cfg collab _ q ex [] _)
              · simp only [hpr, if_false]
                simpa using hclin

/-- Evaluation of response generation when the generator returns normally. -/
theorem stepGen_eval_ok (collab : Collaborators) (ctx : NLUPipelineContext)
    (q : String) (ints : List InteractionLogEntry) (t : Option String)
    (h : collab.generate_text (pyOr ctx.current_intent "unknown")
        ctx.current_parameters ctx.artifacts = .ok t) :
    stepGen collab ctx q ints =
      ({ ctx with current_state := .responseTextGeneration },
        mkNLUResult ctx.current_intent ctx.current_parameters ctx.artifacts
          ⟨ints, t⟩) := by
  simp only [stepGen, h]

/-- Evaluation of response generation when the generator raises: the canned
apology is substituted. -/
theorem stepGen_eval_raises (collab : Collaborators) (ctx : NLUPipelineContext)
    (q : String) (ints : List InteractionLogEntry)
    (h : collab.generate_text (pyOr ctx.current_intent "unknown")
        ctx.current_parameters ctx.artifacts = .error ()) :
    stepGen collab ctx q ints =
      ({ ctx with current_state := .responseTextGeneration },
        mkNLUResult ctx.current_intent ctx.current_parameters ctx.artifacts
          ⟨ints, some "Sorry, I encountered an error generating a response."⟩) := by
  simp only [stepGen, h]

/-- A known intent (truthy and not the `"unknown"` sentinel) falsifies the
skip-to-response-generation condition. -/
theorem known_intent_cond (s : String) (h1 : s ≠ "") (h2 : s ≠ "unknown") :
    ¬ (¬ (pyTruthy (some s) = true) ∨ (some s : Option String) = some "unknown") := by
  simp [pyTruthy, h1, h2]

/-- Intent classification when the classifier raises. -/
theorem stepIntent_classify_raises (cfg : EngineConfig) (collab : Collaborators)
    (ctx : NLUPipelineContext) (q : String) (ex : List String)
    (ints : List InteractionLogEntry)
    (h : collab.classify_intent q ex = .error ()) :
    stepIntent cfg collab ctx q ex ints =
      ({ ctx with current_state := .intentClassification }, catchAllResult ints) := by
  simp only [stepIntent, h]

/-- Intent classification at a confidence below the threshold: the context
enters `ClarifyingIntent` with the singleton option list, and the pipeline
returns the catch-all result because the log-entry construction raises. -/
theorem stepIntent_low (cfg : EngineConfig) (collab : Collaborators)
    (ctx : NLUPipelineContext) (q : String) (ex : List String)
    (ints : List InteractionLogEntry) (r : ClassifyResult)
    (hcl : collab.classify_intent q ex = .ok r)
    (hlt : r.confidence < clarificationConfidenceThreshold) :
    stepIntent cfg collab ctx q ex ints =
      ({ ctx with
            current_state := .intentClassification
          , current_intent := r.intent
          , confidence_score := r.confidence
          , interaction_mode := some .clarifyingIntent
          , interaction_data :=
              some (.clarification [pyOr r.intent "unknown"] "") },
        catchAllResult ints) := by
  simp only [stepIntent, hcl, interaction_handlers, mkInteractionLogEntry]
  rw [if_pos hlt]

/-- Intent classification at or above the threshold with a known intent:
control falls through to parameter identification. -/
theorem stepIntent_high_known (cfg : EngineConfig) (collab : Collaborators)
    (ctx : NLUPipelineContext) (q : String) (ex : List String)
    (ints : List InteractionLogEntry) (s : String) (c : Rat)
    (hcl : collab.classify_intent q ex = .ok ⟨some s, c⟩)
    (hge : clarificationConfidenceThreshold ≤ c)
    (h1 : s ≠ "") (h2 : s ≠ "unknown") :
    stepIntent cfg collab ctx q ex ints =
      stepParams cfg collab
        { ctx with
            current_state := .intentClassification
          , current_intent := some s
          , confidence_score := c } q ints := by
  simp only [stepIntent, hcl]
  rw [if_neg (not_lt.mpr hge), if_neg (known_intent_cond s h1 h2)]

/-- Parameter identification for a known catalogued intent whose extractor
raises: control skips to response generation. -/
theorem stepParams_extract_raises (cfg : EngineConfig) (collab : Collaborators)
    (ctx : NLUPipelineContext) (q : String) (ints : List InteractionLogEntry)
    (s : String) (cm : CommandMeta)
    (hintent : ctx.current_intent = some s) (h1 : s ≠ "") (h2 : s ≠ "unknown")
    (hcm : dictGet cfg.command_metadata s = some cm)
    (hex : collab.identify_parameters q s cm.param_schema = .error ()) :
    stepParams cfg collab ctx q ints =
      stepGen collab { ctx with current_state := .parameterIdentification }
        q ints := by
  simp only [stepParams, hintent, hcm, hex]
  rw [if_neg (known_intent_cond s h1 h2)]

/-- Parameter identification for a known catalogued intent whose extractor
returns parameters with no validation requests: control continues to code
execution with the schema class bound. -/
theorem stepParams_no_requests (cfg : EngineConfig) (collab : Collaborators)
    (ctx : NLUPipelineContext) (q : String) (ints : List InteractionLogEntry)
    (s : String) (cm : CommandMeta) (ps : Params)
    (hintent : ctx.current_intent = some s) (h1 : s ≠ "") (h2 : s ≠ "unknown")
    (hcm : dictGet cfg.command_metadata s = some cm)
    (hex : collab.identify_parameters q s cm.param_schema = .ok (ps, [])) :
    stepParams cfg collab ctx q ints =
      stepExec cfg collab
        { ctx with
            current_state := .parameterIdentification
          , current_parameters := ps
          , parameter_validation_errors := [] }
        (some cm.param_schema) q ints := by
  simp only [stepParams, hintent, hcm, hex, List.map_nil]
  rw [if_neg (known_intent_cond s h1 h2)]

/-- Code execution when no override is declared for the current intent:
nothing runs, artifacts stay `None`, control continues to response
generation. -/
theorem stepExec_no_override (cfg : EngineConfig) (collab : Collaborators)
    (ctx : NLUPipelineContext) (pc : Option PyType) (q : String)
    (ints : List InteractionLogEntry) (s : String)
    (hintent : ctx.current_intent = some s) (h1 : s ≠ "")
    (hov : dictGet cfg.overrides s = none) :
    stepExec cfg collab ctx pc q ints =
      stepGen collab
        { ctx with current_state := .codeExecution, artifacts := none }
        q ints := by
  simp only [stepExec, hintent, hov]
  rw [if_pos h1]

/-- C9: every reachable pipeline context satisfies the interaction-field
invariant: `interaction_data` is present exactly when `interaction_mode` is
set, and its variant matches the mode (`ClarificationData` for
`ClarifyingIntent`, `ValidationData` for `ValidatingParameter`; the
handler-less `AWAITING_FEEDBACK` mode is never entered). -/
theorem claim_C9_interaction_invariant (ctx : NLUPipelineContext)
    (h : Reachable ctx) : contextInvariant ctx := by
  induction h with
  | construct => exact cleared_invariant initialContext rfl rfl
  | run cfg collab ctx q ex hr ih => exact run_invariant cfg collab ctx q ex ih
  | handler mode handler ctx input hr hh ih =>
      have hcl := handler_cleared mode handler hh ctx input
      exact cleared_invariant _ hcl.1 hcl.2

/-- Witness for C9 at the freshly constructed context. -/
theorem claim_C9_witness :
    Reachable initialContext ∧ contextInvariant initialContext :=
  ⟨Reachable.construct,
    claim_C9_interaction_invariant initialContext Reachable.construct⟩

/-- C1: evaluation at the failing input.  With a known intent `add` at
confidence 0.4, `run` does switch the persistent context into
`ClarifyingIntent` mode, but the returned result is the run-level catch-all:
`command` is the string `"unknown"` — not null — and the response text is the
generic apology, not a clarification prompt (the `InteractionLogEntry`
construction raises before the clarification result is built).  At confidence
0.9 the same engine never enters `ClarifyingIntent`, as the claim states. -/
theorem claim_C1_low_confidence_entry_diverges :
    (run cfgAdd collabLow initialContext "do it" []).1.interaction_mode =
        some .clarifyingIntent ∧
    (run cfgAdd collabLow initialContext "do it" []).2 = .ok (catchAllResult []) ∧
    (catchAllResult []).command = some "unknown" ∧
    (catchAllResult []).conversation_detail.response_text =
        some "Sorry, an unexpected error occurred." ∧
    (run cfgAdd collabHigh initialContext "do it" []).1.interaction_mode = none := by
  decide

/-- C2 counterexample: a raising classifier with a healthy generator.  The
pipeline is abandoned at the run-level catch-all — the remaining steps do not
run and the response is the generic apology, not the generator's ordinary
text, refuting "caught at the point of call and the pipeline continues to
completion". -/
theorem claim_C2_counterexample :
    collabBoom.generate_text "unknown" [] none = .ok (some "GEN") ∧
    (run cfgAdd collabBoom initialContext "q" []).2 = .ok (catchAllResult []) ∧
    (catchAllResult []).conversation_detail.response_text ≠ some "GEN" ∧
    (catchAllResult []).command = some "unknown" := by
  decide

/-- C2 as amended: extractor and generator exceptions are caught at the point
of call and the pipeline continues (to response generation, and with the
canned apology respectively); a classifier exception is caught only by the
run-level catch-all, which abandons the remaining steps and returns the
command `"unknown"` with the generic apology — no collaborator exception
propagates out of `run`. -/
theorem claim_C2_amended (cfg : EngineConfig) (collab : Collaborators)
    (ctx : NLUPipelineContext) (q : String) (ex : List String)
    (hmode : ctx.interaction_mode = none) :
    (collab.classify_intent q ex = .error () →
      run cfg collab ctx q ex =
        ({ resetCtx ctx with current_state := .intentClassification },
          .ok (catchAllResult []))) ∧
    (∀ (s : String) (c : Rat) (cm : CommandMeta) (t : Option String),
      collab.classify_intent q ex = .ok ⟨some s, c⟩ →
      clarificationConfidenceThreshold ≤ c → s ≠ "" → s ≠ "unknown" →
      dictGet cfg.command_metadata s = some cm →
      collab.identify_parameters q s cm.param_schema = .error () →
      collab.generate_text s [] none = .ok t →
      (run cfg collab ctx q ex).2 = .ok (mkNLUResult (some s) [] none ⟨[], t⟩)) ∧
    (∀ (s : String) (c : Rat) (cm : CommandMeta) (ps : Params),
      collab.classify_intent q ex = .ok ⟨some s, c⟩ →
      clarificationConfidenceThreshold ≤ c → s ≠ "" → s ≠ "unknown" →
      dictGet cfg.command_metadata s = some cm →
      collab.identify_parameters q s cm.param_schema = .ok (ps, []) →
      dictGet cfg.overrides s = none →
      collab.generate_text s ps none = .error () →
      (run cfg collab ctx q ex).2 = .ok (mkNLUResult (some s) ps none
        ⟨[], some "Sorry, I encountered an error generating a response."⟩)) := by
  refine ⟨?_, ?_, ?_⟩
  · intro hcl
    rw [run_mode_none cfg collab ctx q ex hmode]
    simp only [mainPipeline]
    rw [stepIntent_classify_raises cfg collab (resetCtx ctx) q ex [] hcl]
  · intro s c cm t hcl hge h1 h2 hcm hexr hgen
    rw [run_mode_none cfg collab ctx q ex hmode]
    simp only [mainPipeline]
    rw [stepIntent_high_known cfg collab (resetCtx ctx) q ex [] s c hcl hge h1 h2]
    rw [stepParams_extract_raises cfg collab _ q [] s cm rfl h1 h2 hcm hexr]
    rw [stepGen_eval_ok collab _ q [] t (by simpa [pyOr, h1] using hgen)]
    rfl
  · intro s c cm ps hcl hge h1 h2 hcm hexok hov hgen
    rw [run_mode_none cfg collab ctx q ex hmode]
    simp only [mainPipeline]
    rw [stepIntent_high_known cfg collab (resetCtx ctx) q ex [] s c hcl hge h1 h2]
    rw [stepParams_no_requests cfg collab _ q [] s cm ps rfl h1 h2 hcm hexok]
    rw [stepExec_no_override cfg collab _ (some cm.param_schema) q [] s rfl h1 hov]
    rw [stepGen_eval_raises collab _ q [] (by simpa [pyOr, h1] using hgen)]

/-- Witness for C2 as amended, at the raising classifier. -/
theorem claim_C2_amended_witness :
    initialContext.interaction_mode = none ∧
    collabBoom.classify_intent "q" [] = .error () ∧
    run cfgAdd collabBoom initialContext "q" [] =
      ({ resetCtx initialContext with current_state := .intentClassification },
        .ok (catchAllResult [])) :=
  ⟨rfl, rfl, (claim_C2_amended cfgAdd collabBoom initialContext "q" [] rfl).1 rfl⟩

/-- C3 counterexample: starting `run` in the known, handler-less
`AWAITING_FEEDBACK` mode does not fail fatally — the engine clears the
interaction state and runs the whole pipeline to a normal generated
response. -/
theorem claim_C3_counterexample :
    ctxAwaitingFeedback.interaction_mode = some .awaitingFeedback ∧
    (interaction_handlers .awaitingFeedback).isNone = true ∧
    (run cfgAdd collabHigh ctxAwaitingFeedback "hello" []).2 =
      .ok (mkNLUResult (some "add") [] none ⟨[], some "GEN"⟩) ∧
    (run cfgAdd collabHigh ctxAwaitingFeedback "hello" []).1.interaction_mode =
      none := by
  decide

/-- C3 as amended: entering `run` with a mode that has no registered handler
makes the engine log an error, clear the interaction fields and restart the
main pipeline at intent classification in the same call — it recovers and
continues rather than failing fatally. -/
theorem claim_C3_amended (cfg : EngineConfig) (collab : Collaborators)
    (ctx : NLUPipelineContext) (q : String) (ex : List String)
    (hm : ctx.interaction_mode = some .awaitingFeedback) :
    run cfg collab ctx q ex =
      ((mainPipeline cfg collab
          { ctx with interaction_mode := none, interaction_data := none }
          q ex [] .intent).1,
        .ok (mainPipeline cfg collab
          { ctx with interaction_mode := none, interaction_data := none }
          q ex [] .intent).2) :=
  run_no_handler cfg collab ctx q ex .awaitingFeedback hm rfl

/-- Witness for C3 as amended at a concrete feedback-mode context. -/
theorem claim_C3_amended_witness :
    ctxAwaitingFeedback.interaction_mode = some .awaitingFeedback ∧
    run cfgAdd collabHigh ctxAwaitingFeedback "hello" [] =
      ((mainPipeline cfgAdd collabHigh
          { ctxAwaitingFeedback with
              interaction_mode := none, interaction_data := none }
          "hello" [] [] .intent).1,
        .ok (mainPipeline cfgAdd collabHigh
          { ctxAwaitingFeedback with
              interaction_mode := none, interaction_data := none }
          "hello" [] [] .intent).2) :=
  ⟨rfl, claim_C3_amended cfgAdd collabHigh ctxAwaitingFeedback "hello" [] rfl⟩

end TalkEngine

namespace TalkEngine

/-- C4: resuming a `ClarifyingIntent` interaction (whose stored data prompt is
the empty string the engine installs) with a reply parsing to a valid 1-based
option index sets `current_intent` to the chosen option with confidence 1.0,
clears the interaction fields, returns `(context, true,
ParameterIdentification, null)`, and the same `run` call continues into the
parameter-identification step of the main pipeline with no second
round-trip. -/
theorem claim_C4_clarification_resume_success (cfg : EngineConfig)
    (collab : Collaborators) (ctx : NLUPipelineContext) (ex : List String)
    (opts : List String) (input : String) (n : Int) (chosen : String)
    (hmode : ctx.interaction_mode = some .clarifyingIntent)
    (hdata : ctx.interaction_data = some (.clarification opts ""))
    (hparse : pyInt input = some n)
    (hlo : 1 ≤ n) (hhi : n ≤ (opts.length : Int))
    (hchosen : opts.get? (n - 1).toNat = some chosen) :
    clarification_handle_input ctx input =
      ({ ctx with
          current_intent := some chosen
        , confidence_score := 1
        , interaction_mode := none
        , interaction_data := none },
        true, some NLUPipelineState.parameterIdentification.value, none) ∧
    run cfg collab ctx input ex =
      ((mainPipeline cfg collab
          { ctx with
              current_intent := some chosen
            , confidence_score := 1
            , interaction_mode := none
            , interaction_data := none } input ex [] .param).1,
        .ok (mainPipeline cfg collab
          { ctx with
              current_intent := some chosen
            , confidence_score := 1
            , interaction_mode := none
            , interaction_data := none } input ex [] .param).2) := by
  have hh : clarification_handle_input ctx input =
      ({ ctx with
          current_intent := some chosen
        , confidence_score := 1
        , interaction_mode := none
        , interaction_data := none },
        true, some NLUPipelineState.parameterIdentification.value, none) := by
    simp only [clarification_handle_input, hdata, hparse, Option.map]
    rw [if_pos ⟨by omega, by omega⟩, hchosen]
  refine ⟨hh, ?_⟩
  rw [run_mode_handler cfg collab ctx input ex .clarifyingIntent
    ⟨clarification_get_initial_prompt, clarification_handle_input⟩ hmode rfl
    (by rw [hdata]; rfl)]
  simp only [hh, if_true]

/-- Witness for C4: choosing option 2 of a two-option clarification. -/
theorem claim_C4_witness :
    pyInt "2" = some 2 ∧
    (clarification_handle_input ctxClarTwo "2" =
      ({ ctxClarTwo with
          current_intent := some "sub"
        , confidence_score := 1
        , interaction_mode := none
        , interaction_data := none },
        true, some NLUPipelineState.parameterIdentification.value, none) ∧
    run cfgAdd collabHigh ctxClarTwo "2" [] =
      ((mainPipeline cfgAdd collabHigh
          { ctxClarTwo with
              current_intent := some "sub"
            , confidence_score := 1
            , interaction_mode := none
            , interaction_data := none } "2" [] [] .param).1,
        .ok (mainPipeline cfgAdd collabHigh
          { ctxClarTwo with
              current_intent := some "sub"
            , confidence_score := 1
            , interaction_mode := none
            , interaction_data := none } "2" [] [] .param).2)) :=
  ⟨by decide,
    claim_C4_clarification_resume_success cfgAdd collabHigh ctxClarTwo []
      ["add", "sub"] "2" 2 "sub" rfl rfl (by decide) (by decide) (by decide)
      (by decide)⟩

/-- C5 counterexample: after a real clarification entry (classifier returned
`add` at 0.4), a failed resume leaves `current_intent` still set to `add` —
not unset — and the immediately returned result echoes `command = "add"`. -/
theorem claim_C5_counterexample :
    ctxAfterClarificationEntry.interaction_mode = some .clarifyingIntent ∧
    ctxAfterClarificationEntry.current_intent = some "add" ∧
    (run cfgAdd collabLow ctxAfterClarificationEntry "xyz" []).1.current_intent =
      some "add" ∧
    (run cfgAdd collabLow ctxAfterClarificationEntry "xyz" []).1.current_intent ≠
      none ∧
    (run cfgAdd collabLow ctxAfterClarificationEntry "xyz" []).2 =
      .ok (mkNLUResult (some "add") [] none
        ⟨[], some "Sorry, I didn\x27t understand that choice. Please try again."⟩) := by
  decide

/-- C5 as amended: resuming a `ClarifyingIntent` interaction with an
unparsable or out-of-range reply clears the interaction fields and returns
`shouldProceed = false` with the apology string; the main sequence does not
resume in that call, and `current_intent` is left unchanged — still holding
whatever classification stored there (the low-confidence intent), which the
returned `command` echoes, rather than being unset. -/
theorem claim_C5_clarification_resume_failure (cfg : EngineConfig)
    (collab : Collaborators) (ctx : NLUPipelineContext) (ex : List String)
    (opts : List String) (input : String)
    (hmode : ctx.interaction_mode = some .clarifyingIntent)
    (hdata : ctx.interaction_data = some (.clarification opts ""))
    (hbad : ∀ n : Int, pyInt input = some n → ¬ (1 ≤ n ∧ n ≤ (opts.length : Int))) :
    clarification_handle_input ctx input =
      ({ ctx with interaction_mode := none, interaction_data := none },
        false, none,
        some "Sorry, I didn\x27t understand that choice. Please try again.") ∧
    run cfg collab ctx input ex =
      ({ ctx with interaction_mode := none, interaction_data := none },
        .ok (mkNLUResult ctx.current_intent ctx.current_parameters ctx.artifacts
          ⟨[], some "Sorry, I didn\x27t understand that choice. Please try again."⟩)) := by
  have hh : clarification_handle_input ctx input =
      ({ ctx with interaction_mode := none, interaction_data := none },
        false, none,
        some "Sorry, I didn\x27t understand that choice. Please try again.") := by
    simp only [clarification_handle_input, hdata]
    cases hp : pyInt input with
    | none => simp only [Option.map]
    | some n =>
        simp only [Option.map]
        rw [if_neg (fun hcond => hbad n hp ⟨by omega, by omega⟩)]
  refine ⟨hh, ?_⟩
  rw [run_mode_handler cfg collab ctx input ex .clarifyingIntent
    ⟨clarification_get_initial_prompt, clarification_handle_input⟩ hmode rfl
    (by rw [hdata]; rfl)]
  simp only [hh, Bool.false_eq_true, if_false]

/-- Witness for C5 as amended: the unparsable reply `"xyz"` against the
engine-produced clarification context. -/
theorem claim_C5_witness :
    pyInt "xyz" = none ∧
    (clarification_handle_input ctxAfterClarificationEntry "xyz" =
      ({ ctxAfterClarificationEntry with
          interaction_mode := none, interaction_data := none },
        false, none,
        some "Sorry, I didn\x27t understand that choice. Please try again.") ∧
    run cfgAdd collabLow ctxAfterClarificationEntry "xyz" [] =
      ({ ctxAfterClarificationEntry with
          interaction_mode := none, interaction_data := none },
        .ok (mkNLUResult ctxAfterClarificationEntry.current_intent
          ctxAfterClarificationEntry.current_parameters
          ctxAfterClarificationEntry.artifacts
          ⟨[], some "Sorry, I didn\x27t understand that choice. Please try again."⟩))) :=
  ⟨by decide,
    claim_C5_clarification_resume_failure cfgAdd collabLow
      ctxAfterClarificationEntry [] ["add"] "xyz" (by decide) (by decide)
      (fun n h => by
        rw [show pyInt "xyz" = (none : Option Int) from by decide] at h
        exact Option.noConfusion h)⟩

/-- C6: evaluation at the failing input.  An extraction with two validation
requests does switch the context into `ValidatingParameter` mode keyed on the
first request (the stored prompt names `req_param` only), but the same call
then falls through to response generation and returns the generator's text —
not the validation prompt — because the `InteractionLogEntry` construction
raises inside the extraction `try` block; and resuming that pending
interaction makes `run` itself raise (the log write sits before the `try`
block), so the reply is never written into `current_parameters` and code
execution is never reached. -/
theorem claim_C6_validation_keyed_first_but_resume_raises :
    ctxAfterValidationEntry.interaction_mode = some .validatingParameter ∧
    ctxAfterValidationEntry.interaction_data =
      some (.validation
        [⟨"req_param", "missing_required", none⟩, ⟨"p2", "missing_required", none⟩]
        (some "What is the value for req_param? (missing_required)")) ∧
    (run cfgAdd collabVal initialContext "first query" []).2 =
      .ok (mkNLUResult (some "add") [] none ⟨[], some "GEN"⟩) ∧
    run cfgAdd collabVal ctxAfterValidationEntry "provided value" [] =
      (ctxAfterValidationEntry, .error ()) := by
  decide

/-- C7: evaluation at failing inputs.  A raising executable, an executable
returning the wrong result class, and a parameter schema that rejects the
accumulated parameters are each caught: the pipeline still reaches response
generation (the generator's text is returned) and the context carries
`artifacts = None`.  (The returned `NLUResult` record itself has no
`artifacts` field at all — see the `NLUResult` model.) -/
theorem claim_C7_execution_failures_caught :
    (run cfgExecRaise collabHigh initialContext "q" []).1.artifacts = none ∧
    (run cfgExecRaise collabHigh initialContext "q" []).2 =
      .ok (mkNLUResult (some "add") [] none ⟨[], some "GEN"⟩) ∧
    (run cfgExecWrong collabHigh initialContext "q" []).1.artifacts = none ∧
    (run cfgExecWrong collabHigh initialContext "q" []).2 =
      .ok (mkNLUResult (some "add") [] none ⟨[], some "GEN"⟩) ∧
    (run cfgExecReject collabHigh initialContext "q" []).1.artifacts = none ∧
    (run cfgExecReject collabHigh initialContext "q" []).2 =
      .ok (mkNLUResult (some "add") [] none ⟨[], some "GEN"⟩) := by
  decide

/-- C8 counterexample: a catalog entry whose description is the empty string —
an entry that lacks a non-empty description — still constructs successfully,
refuting the claimed failure. -/
theorem claim_C8_counterexample :
    constructOk
      [("cmd", [("description", .str ""), ("parameter_class", .pycls ptypeAdd)])]
      [] = true := by
  rfl

/-- Success of `validate_cmd_def` coincides with the spec-side per-entry
well-formedness (string description of any length, class-typed `BaseModel`
parameter schema). -/
theorem validate_cmd_def_ok (n : String) (d : List (String × MetaVal)) :
    (match validate_cmd_def n d with
     | .ok _ => true
     | .error _ => false) = metaEntryWellFormed d := by
  unfold validate_cmd_def metaEntryWellFormed
  cases h1 : dictGet d "description" with
  | none => rfl
  | some v =>
      cases v with
      | str s =>
          cases h2 : dictGet d "parameter_class" with
          | none => rfl
          | some w =>
              cases w with
              | str s2 => rfl
              | pycls c => cases hc : c.subclass_of_base_model <;> simp [hc]
              | other => rfl
      | pycls c => rfl
      | other => rfl

/-- Construction succeeds exactly when the whole-catalog validation does. -/
theorem constructOk_eq (m : List (String × List (String × MetaVal)))
    (o : List (String × ExecCode)) :
    constructOk m o =
      (match validate_command_metadata m with
       | .ok _ => true
       | .error _ => false) := by
  unfold constructOk construct
  cases h : validate_command_metadata m <;> simp [h, bind, Except.bind]

/-- C8 as amended: construction validates the catalog eagerly and succeeds
exactly when every entry maps `"description"` to a string — an empty string
is accepted — and `"parameter_class"` to a class that subclasses `BaseModel`;
a missing or non-string description, or a missing/non-class/non-`BaseModel`
schema, fails at construction time.  (`run` never re-validates: the pipeline
consumes only the already-validated `EngineConfig`.) -/
theorem claim_C8_eager_validation (m : List (String × List (String × MetaVal)))
    (o : List (String × ExecCode)) :
    constructOk m o = m.all (fun p => metaEntryWellFormed p.2) := by
  rw [constructOk_eq]
  induction m with
  | nil => rfl
  | cons hd tl ih =>
      simp only [validate_command_metadata, List.all_cons]
      rw [← validate_cmd_def_ok hd.1 hd.2]
      cases h : validate_cmd_def hd.1 hd.2 with
      | ok u => simpa [h, bind, Except.bind] using ih
      | error e => simp [h, bind, Except.bind]

/-- C10: whenever a fresh `run` enters clarification, the installed
`ClarificationData.options` is exactly the singleton
`[current_intent or "unknown"]` — one element, the classifier's
low-confidence intent or the string `"unknown"` when the classifier produced
no (truthy) intent — and against a one-option list the clarification handler
proceeds exactly when the reply parses as the integer 1. -/
theorem claim_C10_singleton_options (cfg : EngineConfig) (collab : Collaborators)
    (ctx : NLUPipelineContext) (q : String) (ex : List String)
    (r : ClassifyResult)
    (hmode : ctx.interaction_mode = none)
    (hcl : collab.classify_intent q ex = .ok r)
    (hlt : r.confidence < clarificationConfidenceThreshold) :
    (run cfg collab ctx q ex).1.interaction_data =
      some (.clarification [pyOr r.intent "unknown"] "") ∧
    [pyOr r.intent "unknown"].length = 1 ∧
    (∀ (ctx2 : NLUPipelineContext) (o p input : String),
      ctx2.interaction_data = some (.clarification [o] p) →
      (((clarification_handle_input ctx2 input).2.1 = true) ↔
        pyInt input = some 1)) := by
  refine ⟨?_, rfl, ?_⟩
  · rw [run_mode_none cfg collab ctx q ex hmode]
    simp only [mainPipeline]
    rw [stepIntent_low cfg collab (resetCtx ctx) q ex [] r hcl hlt]
  · intro ctx2 o p input hdata2
    simp only [clarification_handle_input, hdata2]
    cases hp : pyInt input with
    | none => simp
    | some n =>
        simp only [Option.map]
        by_cases hn : n = 1
        · subst hn
          rw [if_pos ⟨by omega, by simp⟩]
          simp
        · rw [if_neg (fun hcond => hn (by
            have h1 := hcond.1
            have h2 := hcond.2
            simp only [List.length_singleton] at h2
            omega))]
          simp [hp, hn]

/-- Witness for C10 at the 0.4-confidence classifier. -/
theorem claim_C10_witness :
    collabLow.classify_intent "q" [] = .ok ⟨some "add", mkRat 4 10⟩ ∧
    ((run cfgAdd collabLow initialContext "q" []).1.interaction_data =
      some (.clarification [pyOr (some "add") "unknown"] "") ∧
    [pyOr (some "add") "unknown"].length = 1 ∧
    (∀ (ctx2 : NLUPipelineContext) (o p input : String),
      ctx2.interaction_data = some (.clarification [o] p) →
      (((clarification_handle_input ctx2 input).2.1 = true) ↔
        pyInt input = some 1))) :=
  ⟨rfl,
    claim_C10_singleton_options cfgAdd collabLow initialContext "q" []
      ⟨some "add", mkRat 4 10⟩ rfl rfl (by decide)⟩

end TalkEngine
